import Mathlib

/-!
# Shallow embedding of `src/app.js`

The program is an Express + SQLite CRUD backend over two tables:

* `customers(id PK AUTOINCREMENT, first_name NOT NULL, last_name NOT NULL,
  phone_number NOT NULL UNIQUE)`
* `addresses(id PK AUTOINCREMENT, customer_id FK → customers.id ON DELETE CASCADE,
  address_details NOT NULL, city NOT NULL, state NOT NULL, pin_code NOT NULL)`

The store is modelled as explicit state (`DB`): the two tables as lists of rows
in insertion (rowid) order, together with the two AUTOINCREMENT counters.
Each HTTP handler becomes a function from the current `DB` and the request's
fields to a result carrying the HTTP status code, the response payload, and the
new `DB`.  Request body fields are `Option String` (`none` = absent field), and
the JavaScript falsiness test `!field` used by the handlers rejects exactly the
absent and the empty field.  SQL `LIKE` is given SQLite's semantics: `%` and
`_` wildcards and ASCII case-insensitive character comparison.  Foreign-key
enforcement — and with it the declared `ON DELETE CASCADE` — is off in SQLite
unless a connection issues `PRAGMA foreign_keys = ON`, which `app.js` never
does; the model therefore neither checks `customer_id` at address insertion
nor cascades customer deletion to the addresses table.
-/

/-- A row of the `customers` table (`app.js` lines 22-27). -/
structure Customer where
  id : Nat
  first_name : String
  last_name : String
  phone_number : String
deriving Repr, DecidableEq

/-- A row of the `addresses` table (`app.js` lines 30-38). -/
structure Address where
  id : Nat
  customer_id : Nat
  address_details : String
  city : String
  state : String
  pin_code : String
deriving Repr, DecidableEq

/-- The whole SQLite store: both tables in rowid order plus the
AUTOINCREMENT counters that produce `this.lastID`. -/
structure DB where
  customers : List Customer
  addresses : List Address
  nextCustomerId : Nat
  nextAddressId : Nat
deriving Repr, DecidableEq

/-- The empty store right after the two `CREATE TABLE` statements ran. -/
def DB.empty : DB := ⟨[], [], 1, 1⟩

/-- JavaScript truthiness of a request-body field, as used in
`if (!first_name || ...)`: an absent (`undefined`) field and the empty
string are both falsy. -/
def fieldPresent : Option String → Bool
  | none => false
  | some s => !s.isEmpty

/-- Result of a handler that responds with a fresh row id (`this.lastID`). -/
structure CreateResult where
  status : Nat
  id : Option Nat
  db : DB
deriving Repr, DecidableEq

/-- Result of an UPDATE/DELETE handler: just a status plus the new store. -/
structure MutResult where
  status : Nat
  db : DB
deriving Repr, DecidableEq

/-- The `pagination` object of the list response (`app.js` lines 103-108). -/
structure Pagination where
  total : Nat
  page : Nat
  limit : Nat
  totalPages : Nat
deriving Repr, DecidableEq

/-- Result of `GET /api/customers`. -/
structure ListResult where
  status : Nat
  data : List Customer
  pagination : Pagination
deriving Repr, DecidableEq

/-- SQLite's ASCII case folding used by `LIKE`: upper-case ASCII letters
compare equal to their lower-case forms; every other character stands for
itself.  Returned as the code point to keep the comparison on `Nat`. -/
def foldChar (c : Char) : Nat :=
  if 65 ≤ c.toNat && c.toNat ≤ 90 then c.toNat + 32 else c.toNat

/-- SQLite `LIKE` pattern matching: `%` matches any (possibly empty)
sequence, `_` matches exactly one character, and any other pattern
character matches case-insensitively (ASCII). -/
def likeMatch : List Char → List Char → Bool
  | [], cs => cs.isEmpty
  | '%' :: ps, cs => cs.tails.any fun t => likeMatch ps t
  | '_' :: ps, cs =>
    match cs with
    | [] => false
    | _ :: cs => likeMatch ps cs
  | p :: ps, cs =>
    match cs with
    | [] => false
    | c :: cs => (foldChar p == foldChar c) && likeMatch ps cs

/-- `s LIKE pattern` on strings. -/
def strLike (s pattern : String) : Bool := likeMatch pattern.data s.data

/-- The parameter `%${search}%` bound to each `LIKE ?` placeholder
(`app.js` line 84). -/
def likePattern (search : String) : String := "%" ++ search ++ "%"

/-- The `WHERE first_name LIKE ? OR last_name LIKE ? OR phone_number LIKE ?`
clause (`app.js` lines 82-83). -/
def matchesSearch (search : String) (c : Customer) : Bool :=
  strLike c.first_name (likePattern search) ||
  strLike c.last_name (likePattern search) ||
  strLike c.phone_number (likePattern search)

/-- `POST /api/customers` (`app.js` lines 53-70): field validation, then
`INSERT INTO customers ...`.  The `UNIQUE` constraint on `phone_number`
makes the insert fail (surfaced as 500) when the phone number is taken. -/
def createCustomer (db : DB) (first_name last_name phone_number : Option String) :
    CreateResult :=
  if !fieldPresent first_name || !fieldPresent last_name || !fieldPresent phone_number then
    ⟨400, none, db⟩
  else
    let fn := first_name.getD ""
    let ln := last_name.getD ""
    let pn := phone_number.getD ""
    if db.customers.any fun c => c.phone_number == pn then
      ⟨500, none, db⟩
    else
      ⟨201, some db.nextCustomerId,
        { db with
          customers := db.customers ++ [⟨db.nextCustomerId, fn, ln, pn⟩],
          nextCustomerId := db.nextCustomerId + 1 }⟩

/-- The rows the list query ranges over: all customers, or, when `search`
is non-empty (JavaScript `if (search)`), those matching the `LIKE` clause. -/
def customersMatching (db : DB) (search : String) : List Customer :=
  if search.isEmpty then db.customers
  else db.customers.filter (matchesSearch search)

/-- `GET /api/customers` (`app.js` lines 73-112): a count query over the
matching rows and a select bounded by `LIMIT ? OFFSET ?` with
`offset = (page - 1) * limit`; `totalPages = Math.ceil(total / limit)`. -/
def listCustomers (db : DB) (page limit : Nat) (search : String) : ListResult :=
  let offset := (page - 1) * limit
  let total := (customersMatching db search).length
  let rows := ((customersMatching db search).drop offset).take limit
  ⟨200, rows, ⟨total, page, limit, (total + limit - 1) / limit⟩⟩

/-- `GET /api/customers` including the query-string defaults
`const { page = 1, limit = 10, search = '' } = req.query` (`app.js` line 74). -/
def listCustomersQuery (db : DB) (page limit : Option Nat) (search : Option String) :
    ListResult :=
  listCustomers db (page.getD 1) (limit.getD 10) (search.getD "")

/-- Result of `GET /api/customers/:id`. -/
structure GetResult where
  status : Nat
  data : Option Customer
deriving Repr, DecidableEq

/-- `GET /api/customers/:id` (`app.js` lines 115-131):
`SELECT * FROM customers WHERE id = ?` via `db.get`, 404 when no row. -/
def getCustomerById (db : DB) (id : Nat) : GetResult :=
  match db.customers.find? (fun c => c.id == id) with
  | none => ⟨404, none⟩
  | some row => ⟨200, some row⟩

/-- `PUT /api/customers/:id` (`app.js` lines 134-154): field validation,
`UPDATE customers SET ... WHERE id = ?`; the `UNIQUE` constraint fails the
statement (500) when a row is matched and the new phone number belongs to a
different row; otherwise 404 when `this.changes === 0`. -/
def updateCustomer (db : DB) (id : Nat) (first_name last_name phone_number : Option String) :
    MutResult :=
  if !fieldPresent first_name || !fieldPresent last_name || !fieldPresent phone_number then
    ⟨400, db⟩
  else
    let fn := first_name.getD ""
    let ln := last_name.getD ""
    let pn := phone_number.getD ""
    if (db.customers.any fun c => c.id == id) &&
       (db.customers.any fun c => c.id != id && c.phone_number == pn) then
      ⟨500, db⟩
    else if db.customers.countP (fun c => c.id == id) == 0 then
      ⟨404, db⟩
    else
      ⟨200,
        { db with
          customers := db.customers.map fun c =>
            if c.id == id then
              { c with first_name := fn, last_name := ln, phone_number := pn }
            else c }⟩

/-- `DELETE /api/customers/:id` (`app.js` lines 157-172):
`DELETE FROM customers WHERE id = ?`; 404 when `this.changes === 0`.  The
schema declares `ON DELETE CASCADE` (`app.js` line 37), but SQLite keeps
foreign-key enforcement off unless the connection issues
`PRAGMA foreign_keys = ON`, which `app.js` never does, so the statement
removes customer rows only: referencing address rows survive. -/
def deleteCustomer (db : DB) (id : Nat) : MutResult :=
  if db.customers.countP (fun c => c.id == id) == 0 then
    ⟨404, db⟩
  else
    ⟨200, { db with customers := db.customers.filter fun c => c.id != id }⟩

/-- `POST /api/customers/:id/addresses` (`app.js` lines 177-195): validates
the four text fields, then `INSERT INTO addresses ...` unconditionally —
no existence check against the customers table. -/
def createAddress (db : DB) (customer_id : Nat)
    (address_details city state pin_code : Option String) : CreateResult :=
  if !fieldPresent address_details || !fieldPresent city ||
     !fieldPresent state || !fieldPresent pin_code then
    ⟨400, none, db⟩
  else
    let ad := address_details.getD ""
    let ci := city.getD ""
    let st := state.getD ""
    let pc := pin_code.getD ""
    ⟨201, some db.nextAddressId,
      { db with
        addresses := db.addresses ++ [⟨db.nextAddressId, customer_id, ad, ci, st, pc⟩],
        nextAddressId := db.nextAddressId + 1 }⟩

/-- `GET /api/customers/:id/addresses` (`app.js` lines 198-211):
`SELECT * FROM addresses WHERE customer_id = ?`; always 200, possibly `[]`. -/
def listAddressesByCustomer (db : DB) (customer_id : Nat) : List Address :=
  db.addresses.filter fun a => a.customer_id == customer_id

/-- `PUT /api/addresses/:addressId` (`app.js` lines 214-234): validates the
four text fields, `UPDATE addresses SET address_details = ?, city = ?,
state = ?, pin_code = ? WHERE id = ?`; 404 when `this.changes === 0`. -/
def updateAddress (db : DB) (addressId : Nat)
    (address_details city state pin_code : Option String) : MutResult :=
  if !fieldPresent address_details || !fieldPresent city ||
     !fieldPresent state || !fieldPresent pin_code then
    ⟨400, db⟩
  else
    let ad := address_details.getD ""
    let ci := city.getD ""
    let st := state.getD ""
    let pc := pin_code.getD ""
    if db.addresses.countP (fun a => a.id == addressId) == 0 then
      ⟨404, db⟩
    else
      ⟨200,
        { db with
          addresses := db.addresses.map fun a =>
            if a.id == addressId then
              { a with address_details := ad, city := ci, state := st, pin_code := pc }
            else a }⟩

/-- `DELETE /api/addresses/:addressId` (`app.js` lines 237-252):
`DELETE FROM addresses WHERE id = ?`; 404 when `this.changes === 0`. -/
def deleteAddress (db : DB) (addressId : Nat) : MutResult :=
  if db.addresses.countP (fun a => a.id == addressId) == 0 then
    ⟨404, db⟩
  else
    ⟨200, { db with addresses := db.addresses.filter fun a => a.id != addressId }⟩

/-- Spec-side predicate, for comparison with the `LIKE` clause: `sub` is a
prefix of `s` (plain character equality, no wildcards, no case folding). -/
def startsList : List Char → List Char → Bool
  | [], _ => true
  | _ :: _, [] => false
  | a :: sub, b :: s => (a == b) && startsList sub s

/-- Spec-side predicate: `sub` occurs contiguously somewhere in `s`. -/
def hasInfixList (sub s : List Char) : Bool := s.tails.any (startsList sub)

/-- Spec-side predicate: the string `s` contains `sub` as a substring. -/
def containsSubstring (s sub : String) : Bool := hasInfixList sub.data s.data

/-- The data-model invariant of §3 of the design: every stored text field
is non-empty. -/
def DBInv (db : DB) : Prop :=
  (∀ c ∈ db.customers, c.first_name ≠ "" ∧ c.last_name ≠ "" ∧ c.phone_number ≠ "") ∧
  (∀ a ∈ db.addresses,
    a.address_details ≠ "" ∧ a.city ≠ "" ∧ a.state ≠ "" ∧ a.pin_code ≠ "")

/-- A small concrete store used to instantiate the universally quantified
theorems: three customers, no addresses. -/
def sampleDB : DB :=
  ⟨[⟨1, "A", "B", "1"⟩, ⟨2, "C", "D", "2"⟩, ⟨3, "E", "F", "3"⟩], [], 4, 1⟩

/-! ## Helper lemmas -/

/-- A present field denormalises to a non-empty string. -/
theorem fieldPresent_getD {o : Option String} (h : fieldPresent o = true) :
    o.getD "" ≠ "" := by
  match o with
  | none => simp [fieldPresent] at h
  | some s =>
    simp only [fieldPresent, Bool.not_eq_true'] at h
    simp only [Option.getD_some]
    intro hs
    subst hs
    exact absurd h (by decide)

/-- A non-empty `some` field passes the falsiness test. -/
theorem fieldPresent_some {s : String} (h : s ≠ "") : fieldPresent (some s) = true := by
  simp only [fieldPresent, Bool.not_eq_true']
  rw [Bool.eq_false_iff]
  intro he
  exact h ((String.isEmpty_iff s).1 he)

/-- `Char.toNat` is injective. -/
theorem char_toNat_inj {c d : Char} (h : c.toNat = d.toNat) : c = d :=
  Char.ext_iff.2 (UInt32.ext h)

/-- C1 (code bug): on a store where customer 1 owns two address rows,
`DELETE /api/customers/1` answers 200 and removes the customer row, but —
foreign-key enforcement never being enabled by `app.js` — both address rows
survive, and the subsequent `GET /api/customers/1/addresses` returns them
instead of the empty list promised by the claim and by the declared
`ON DELETE CASCADE`. -/
theorem deleteCustomer_no_cascade :
    (deleteCustomer ⟨[⟨1, "A", "B", "123"⟩],
        [⟨1, 1, "a", "b", "c", "d"⟩, ⟨2, 1, "e", "f", "g", "h"⟩], 2, 3⟩ 1).status = 200 ∧
    (deleteCustomer ⟨[⟨1, "A", "B", "123"⟩],
        [⟨1, 1, "a", "b", "c", "d"⟩, ⟨2, 1, "e", "f", "g", "h"⟩], 2, 3⟩ 1).db.customers
      = [] ∧
    (deleteCustomer ⟨[⟨1, "A", "B", "123"⟩],
        [⟨1, 1, "a", "b", "c", "d"⟩, ⟨2, 1, "e", "f", "g", "h"⟩], 2, 3⟩ 1).db.addresses
      = [⟨1, 1, "a", "b", "c", "d"⟩, ⟨2, 1, "e", "f", "g", "h"⟩] ∧
    listAddressesByCustomer
        (deleteCustomer ⟨[⟨1, "A", "B", "123"⟩],
          [⟨1, 1, "a", "b", "c", "d"⟩, ⟨2, 1, "e", "f", "g", "h"⟩], 2, 3⟩ 1).db 1
      = [⟨1, 1, "a", "b", "c", "d"⟩, ⟨2, 1, "e", "f", "g", "h"⟩] := by decide

/-- C6: updating a nonexistent customer id with three non-empty fields answers
404 and leaves the store entirely unchanged. -/
theorem updateCustomer_notFound (db : DB) (id : Nat) (fn ln pn : String)
    (h1 : fn ≠ "") (h2 : ln ≠ "") (h3 : pn ≠ "")
    (hid : ∀ c ∈ db.customers, c.id ≠ id) :
    (updateCustomer db id (some fn) (some ln) (some pn)).status = 404 ∧
    (updateCustomer db id (some fn) (some ln) (some pn)).db = db := by
  have hany : (db.customers.any fun c => c.id == id) = false := by
    rw [List.any_eq_false]
    intro c hc
    simp [hid c hc]
  have hcount : (db.customers.countP (fun c => c.id == id) == 0) = true := by
    rw [beq_iff_eq, List.countP_eq_zero]
    intro c hc
    simp [hid c hc]
  unfold updateCustomer
  simp [fieldPresent_some h1, fieldPresent_some h2, fieldPresent_some h3, hany, hcount]

/-- Witness for C6: id 5 in a store holding only customer 1. -/
theorem updateCustomer_notFound_witness :
    (updateCustomer ⟨[⟨1, "A", "B", "123"⟩], [], 2, 1⟩ 5
        (some "X") (some "Y") (some "9")).status = 404 ∧
    (updateCustomer ⟨[⟨1, "A", "B", "123"⟩], [], 2, 1⟩ 5
        (some "X") (some "Y") (some "9")).db = ⟨[⟨1, "A", "B", "123"⟩], [], 2, 1⟩ :=
  updateCustomer_notFound _ 5 "X" "Y" "9" (by decide) (by decide) (by decide) (by decide)

/-- C7: address creation performs no existence check on `customer_id`: for
every store and every `customer_id` whatsoever, a request with four non-empty
text fields answers 201 with the fresh id and appends exactly one address row
carrying that `customer_id`; the customers table is untouched. -/
theorem createAddress_unchecked (db : DB) (cid : Nat) (ad ci st pc : String)
    (h1 : ad ≠ "") (h2 : ci ≠ "") (h3 : st ≠ "") (h4 : pc ≠ "") :
    (createAddress db cid (some ad) (some ci) (some st) (some pc)).status = 201 ∧
    (createAddress db cid (some ad) (some ci) (some st) (some pc)).id = some db.nextAddressId ∧
    (createAddress db cid (some ad) (some ci) (some st) (some pc)).db.addresses
      = db.addresses ++ [⟨db.nextAddressId, cid, ad, ci, st, pc⟩] ∧
    (createAddress db cid (some ad) (some ci) (some st) (some pc)).db.customers
      = db.customers := by
  unfold createAddress
  simp [fieldPresent_some h1, fieldPresent_some h2, fieldPresent_some h3, fieldPresent_some h4]

/-- Witness for C7: `customer_id` 42 in a store whose customers table is
empty, so the referenced customer does not exist. -/
theorem createAddress_unchecked_witness :
    (createAddress ⟨[], [], 1, 1⟩ 42 (some "a") (some "b") (some "c") (some "d")).status = 201 ∧
    (createAddress ⟨[], [], 1, 1⟩ 42 (some "a") (some "b") (some "c") (some "d")).id = some 1 ∧
    (createAddress ⟨[], [], 1, 1⟩ 42
        (some "a") (some "b") (some "c") (some "d")).db.addresses
      = [] ++ [⟨1, 42, "a", "b", "c", "d"⟩] ∧
    (createAddress ⟨[], [], 1, 1⟩ 42
        (some "a") (some "b") (some "c") (some "d")).db.customers = [] :=
  createAddress_unchecked _ 42 "a" "b" "c" "d" (by decide) (by decide) (by decide) (by decide)

/-- C10: the list handler defaults an omitted `page` to 1, an omitted `limit`
to 10 and an omitted `search` to the empty string, so a bare
`GET /api/customers` returns the first at most 10 rows unfiltered. -/
theorem listCustomersQuery_defaults (db : DB) (p l : Option Nat) (s : Option String) :
    listCustomersQuery db none l s = listCustomersQuery db (some 1) l s ∧
    listCustomersQuery db p none s = listCustomersQuery db p (some 10) s ∧
    listCustomersQuery db p l none = listCustomersQuery db p l (some "") ∧
    (listCustomersQuery db none none none).data = db.customers.take 10 ∧
    (listCustomersQuery db none none none).data.length ≤ 10 := by
  refine ⟨rfl, rfl, rfl, ?_, ?_⟩
  · simp [listCustomersQuery, listCustomers, customersMatching,
      (by decide : "".isEmpty = true)]
  · simp [listCustomersQuery, listCustomers, customersMatching, List.length_take,
      (by decide : "".isEmpty = true)]

/-- C2: customer creation answers 400 and leaves the store untouched whenever
a field is absent or empty; with three present non-empty fields and a phone
number not already stored it answers 201 with the fresh id and appends exactly
that one row. -/
theorem createCustomer_spec (db : DB) (first_name last_name phone_number : Option String) :
    ((fieldPresent first_name = false ∨ fieldPresent last_name = false ∨
        fieldPresent phone_number = false) →
      (createCustomer db first_name last_name phone_number).status = 400 ∧
      (createCustomer db first_name last_name phone_number).db = db) ∧
    (∀ fn ln pn : String, first_name = some fn → last_name = some ln →
      phone_number = some pn → fn ≠ "" → ln ≠ "" → pn ≠ "" →
      (∀ c ∈ db.customers, c.phone_number ≠ pn) →
      (createCustomer db first_name last_name phone_number).status = 201 ∧
      (createCustomer db first_name last_name phone_number).id = some db.nextCustomerId ∧
      (createCustomer db first_name last_name phone_number).db.customers
        = db.customers ++ [⟨db.nextCustomerId, fn, ln, pn⟩] ∧
      (createCustomer db first_name last_name phone_number).db.addresses = db.addresses) := by
  constructor
  · intro h
    have hcond : (!fieldPresent first_name || !fieldPresent last_name ||
        !fieldPresent phone_number) = true := by
      rcases h with h | h | h <;> simp [h]
    unfold createCustomer
    simp [hcond]
  · rintro fn ln pn rfl rfl rfl h1 h2 h3 hphone
    have hany : (db.customers.any fun c => c.phone_number == pn) = false := by
      rw [List.any_eq_false]
      intro c hc
      simp [hphone c hc]
    unfold createCustomer
    simp [fieldPresent_some h1, fieldPresent_some h2, fieldPresent_some h3, hany]

/-- Witness for C2: an absent field is rejected on the empty store; a full
request then succeeds with id 1. -/
theorem createCustomer_spec_witness :
    ((createCustomer DB.empty none (some "B") (some "1")).status = 400 ∧
      (createCustomer DB.empty none (some "B") (some "1")).db = DB.empty) ∧
    ((createCustomer DB.empty (some "A") (some "B") (some "1")).status = 201 ∧
      (createCustomer DB.empty (some "A") (some "B") (some "1")).id
        = some DB.empty.nextCustomerId ∧
      (createCustomer DB.empty (some "A") (some "B") (some "1")).db.customers
        = DB.empty.customers ++ [⟨DB.empty.nextCustomerId, "A", "B", "1"⟩] ∧
      (createCustomer DB.empty (some "A") (some "B") (some "1")).db.addresses
        = DB.empty.addresses) :=
  ⟨(createCustomer_spec DB.empty none (some "B") (some "1")).1 (Or.inl rfl),
    (createCustomer_spec DB.empty (some "A") (some "B") (some "1")).2 "A" "B" "1" rfl rfl rfl
      (by decide) (by decide) (by decide) (by simp [DB.empty])⟩

/-- C3: when the store already holds a customer with phone number `p`, a
create request carrying non-empty fields and the same `p` hits the `UNIQUE`
constraint on `phone_number`: the statement fails, surfaced as 500, and no
row is inserted. -/
theorem createCustomer_duplicate (db : DB) (c : Customer) (hc : c ∈ db.customers)
    (fn ln : String) (h1 : fn ≠ "") (h2 : ln ≠ "") (h3 : c.phone_number ≠ "") :
    (createCustomer db (some fn) (some ln) (some c.phone_number)).status = 500 ∧
    (createCustomer db (some fn) (some ln) (some c.phone_number)).db = db := by
  have hany : (db.customers.any fun x => x.phone_number == c.phone_number) = true := by
    rw [List.any_eq_true]
    exact ⟨c, hc, by simp⟩
  unfold createCustomer
  simp [fieldPresent_some h1, fieldPresent_some h2, fieldPresent_some h3, hany]

/-- Witness for C3: phone number "1" is already held by customer 1 of the
sample store; the second create with "1" fails with 500. -/
theorem createCustomer_duplicate_witness :
    (createCustomer sampleDB (some "X") (some "Y") (some "1")).status = 500 ∧
    (createCustomer sampleDB (some "X") (some "Y") (some "1")).db = sampleDB :=
  createCustomer_duplicate sampleDB ⟨1, "A", "B", "1"⟩ (by decide) "X" "Y"
    (by decide) (by decide) (by decide)

/-- C4: for `page ≥ 1` and `limit ≥ 1` the list handler returns at most
`limit` rows — precisely the window of the matching rows at offset
`(page-1)*limit` — while `total` counts all matching rows independently of
the window and `totalPages` is the ceiling of `total / limit`. -/
theorem listCustomers_pagination (db : DB) (page limit : Nat) (search : String)
    (hpage : 1 ≤ page) (hlimit : 1 ≤ limit) :
    (listCustomers db page limit search).data.length ≤ limit ∧
    (listCustomers db page limit search).data
      = ((customersMatching db search).drop ((page - 1) * limit)).take limit ∧
    (listCustomers db page limit search).pagination.total
      = (customersMatching db search).length ∧
    (listCustomers db page limit search).pagination.totalPages
      = (customersMatching db search).length ⌈/⌉ limit := by
  refine ⟨?_, rfl, rfl, ?_⟩
  · rw [show (listCustomers db page limit search).data
        = ((customersMatching db search).drop ((page - 1) * limit)).take limit from rfl]
    rw [List.length_take]
    exact Nat.min_le_left _ _
  · rw [Nat.ceilDiv_eq_add_pred_div]
    rfl

/-- Witness for C4: page 1, limit 2 over the three-customer sample store. -/
theorem listCustomers_pagination_witness :
    (listCustomers sampleDB 1 2 "").data.length ≤ 2 ∧
    (listCustomers sampleDB 1 2 "").data
      = ((customersMatching sampleDB "").drop ((1 - 1) * 2)).take 2 ∧
    (listCustomers sampleDB 1 2 "").pagination.total
      = (customersMatching sampleDB "").length ∧
    (listCustomers sampleDB 1 2 "").pagination.totalPages
      = (customersMatching sampleDB "").length ⌈/⌉ 2 :=
  listCustomers_pagination sampleDB 1 2 "" (by decide) (by decide)

/-- C9: updating an existing address rewrites exactly the four text fields of
the addressed row — its `id` and `customer_id` survive — while every other
address row and the whole customers table (and the id counters) are left
unchanged. -/
theorem updateAddress_frame (db : DB) (aid : Nat) (ad ci st pc : String)
    (h1 : ad ≠ "") (h2 : ci ≠ "") (h3 : st ≠ "") (h4 : pc ≠ "")
    (a0 : Address) (ha0 : a0 ∈ db.addresses) (haid : a0.id = aid)
    (b : Address) (hb : b ∈ db.addresses) (hbne : b.id ≠ aid) :
    (updateAddress db aid (some ad) (some ci) (some st) (some pc)).status = 200 ∧
    (updateAddress db aid (some ad) (some ci) (some st) (some pc)).db.customers
      = db.customers ∧
    (updateAddress db aid (some ad) (some ci) (some st) (some pc)).db.nextCustomerId
      = db.nextCustomerId ∧
    (updateAddress db aid (some ad) (some ci) (some st) (some pc)).db.nextAddressId
      = db.nextAddressId ∧
    (updateAddress db aid (some ad) (some ci) (some st) (some pc)).db.addresses
      = db.addresses.map (fun a =>
          if a.id == aid then
            { a with address_details := ad, city := ci, state := st, pin_code := pc }
          else a) ∧
    b ∈ (updateAddress db aid (some ad) (some ci) (some st) (some pc)).db.addresses ∧
    (⟨a0.id, a0.customer_id, ad, ci, st, pc⟩ : Address)
      ∈ (updateAddress db aid (some ad) (some ci) (some st) (some pc)).db.addresses := by
  have hcount : (db.addresses.countP (fun a => a.id == aid) == 0) = false := by
    rw [beq_eq_false_iff_ne, Ne, List.countP_eq_zero]
    push_neg
    exact ⟨a0, ha0, by simp [haid]⟩
  have heq : (updateAddress db aid (some ad) (some ci) (some st) (some pc)).db.addresses
      = db.addresses.map (fun a =>
          if a.id == aid then
            { a with address_details := ad, city := ci, state := st, pin_code := pc }
          else a) := by
    unfold updateAddress
    simp [fieldPresent_some h1, fieldPresent_some h2, fieldPresent_some h3,
      fieldPresent_some h4, hcount]
  have hst : (updateAddress db aid (some ad) (some ci) (some st) (some pc)).status = 200 := by
    unfold updateAddress
    simp [fieldPresent_some h1, fieldPresent_some h2, fieldPresent_some h3,
      fieldPresent_some h4, hcount]
  have hcu : (updateAddress db aid (some ad) (some ci) (some st) (some pc)).db.customers
      = db.customers := by
    unfold updateAddress
    simp [fieldPresent_some h1, fieldPresent_some h2, fieldPresent_some h3,
      fieldPresent_some h4, hcount]
  have hn1 : (updateAddress db aid (some ad) (some ci) (some st) (some pc)).db.nextCustomerId
      = db.nextCustomerId := by
    unfold updateAddress
    simp [fieldPresent_some h1, fieldPresent_some h2, fieldPresent_some h3,
      fieldPresent_some h4, hcount]
  have hn2 : (updateAddress db aid (some ad) (some ci) (some st) (some pc)).db.nextAddressId
      = db.nextAddressId := by
    unfold updateAddress
    simp [fieldPresent_some h1, fieldPresent_some h2, fieldPresent_some h3,
      fieldPresent_some h4, hcount]
  refine ⟨hst, hcu, hn1, hn2, heq, ?_, ?_⟩
  · rw [heq]
    refine List.mem_map.2 ⟨b, hb, ?_⟩
    rw [if_neg]
    simp [hbne]
  · rw [heq]
    refine List.mem_map.2 ⟨a0, ha0, ?_⟩
    rw [if_pos]
    simp [haid]

/-- Witness for C9: a store with two addresses owned by customer 7; address 1
is updated, address 2 must survive untouched. -/
theorem updateAddress_frame_witness :
    (updateAddress ⟨[⟨7, "A", "B", "1"⟩],
        [⟨1, 7, "a", "b", "c", "d"⟩, ⟨2, 7, "e", "f", "g", "h"⟩], 8, 3⟩ 1
        (some "p") (some "q") (some "r") (some "s")).status = 200 ∧
    (updateAddress ⟨[⟨7, "A", "B", "1"⟩],
        [⟨1, 7, "a", "b", "c", "d"⟩, ⟨2, 7, "e", "f", "g", "h"⟩], 8, 3⟩ 1
        (some "p") (some "q") (some "r") (some "s")).db.customers = [⟨7, "A", "B", "1"⟩] ∧
    (updateAddress ⟨[⟨7, "A", "B", "1"⟩],
        [⟨1, 7, "a", "b", "c", "d"⟩, ⟨2, 7, "e", "f", "g", "h"⟩], 8, 3⟩ 1
        (some "p") (some "q") (some "r") (some "s")).db.nextCustomerId = 8 ∧
    (updateAddress ⟨[⟨7, "A", "B", "1"⟩],
        [⟨1, 7, "a", "b", "c", "d"⟩, ⟨2, 7, "e", "f", "g", "h"⟩], 8, 3⟩ 1
        (some "p") (some "q") (some "r") (some "s")).db.nextAddressId = 3 ∧
    (updateAddress ⟨[⟨7, "A", "B", "1"⟩],
        [⟨1, 7, "a", "b", "c", "d"⟩, ⟨2, 7, "e", "f", "g", "h"⟩], 8, 3⟩ 1
        (some "p") (some "q") (some "r") (some "s")).db.addresses
      = List.map (fun a =>
          if a.id == 1 then
            { a with address_details := "p", city := "q", state := "r", pin_code := "s" }
          else a)
          [⟨1, 7, "a", "b", "c", "d"⟩, ⟨2, 7, "e", "f", "g", "h"⟩] ∧
    (⟨2, 7, "e", "f", "g", "h"⟩ : Address)
      ∈ (updateAddress ⟨[⟨7, "A", "B", "1"⟩],
          [⟨1, 7, "a", "b", "c", "d"⟩, ⟨2, 7, "e", "f", "g", "h"⟩], 8, 3⟩ 1
          (some "p") (some "q") (some "r") (some "s")).db.addresses ∧
    (⟨1, 7, "p", "q", "r", "s"⟩ : Address)
      ∈ (updateAddress ⟨[⟨7, "A", "B", "1"⟩],
          [⟨1, 7, "a", "b", "c", "d"⟩, ⟨2, 7, "e", "f", "g", "h"⟩], 8, 3⟩ 1
          (some "p") (some "q") (some "r") (some "s")).db.addresses :=
  updateAddress_frame _ 1 "p" "q" "r" "s" (by decide) (by decide) (by decide) (by decide)
    ⟨1, 7, "a", "b", "c", "d"⟩ (by decide) rfl
    ⟨2, 7, "e", "f", "g", "h"⟩ (by decide) (by decide)

/-- C8: the §3 data-model invariant — every stored customer has non-empty
`first_name`, `last_name`, `phone_number` and every stored address non-empty
`address_details`, `city`, `state`, `pin_code` — is preserved by customer
create/update and address create/update with arbitrary request fields. -/
theorem handlers_preserve_DBInv (db : DB) (hinv : DBInv db) (id aid cid : Nat)
    (f1 f2 f3 g1 g2 g3 g4 : Option String) :
    DBInv (createCustomer db f1 f2 f3).db ∧
    DBInv (updateCustomer db id f1 f2 f3).db ∧
    DBInv (createAddress db cid g1 g2 g3 g4).db ∧
    DBInv (updateAddress db aid g1 g2 g3 g4).db := by
  refine ⟨?_, ?_, ?_, ?_⟩
  · unfold createCustomer
    by_cases hv : (!fieldPresent f1 || !fieldPresent f2 || !fieldPresent f3) = true
    · rw [if_pos hv]
      exact hinv
    · rw [if_neg hv]
      simp only [Bool.or_eq_true, Bool.not_eq_true', not_or, Bool.not_eq_false] at hv
      obtain ⟨⟨hva, hvb⟩, hvc⟩ := hv
      dsimp only
      by_cases hd : (db.customers.any fun c => c.phone_number == f3.getD "") = true
      · rw [if_pos hd]
        exact hinv
      · rw [if_neg hd]
        refine ⟨?_, hinv.2⟩
        intro c hc
        rcases List.mem_append.1 hc with hc | hc
        · exact hinv.1 c hc
        · rw [List.mem_singleton] at hc
          subst hc
          exact ⟨fieldPresent_getD hva, fieldPresent_getD hvb, fieldPresent_getD hvc⟩
  · unfold updateCustomer
    by_cases hv : (!fieldPresent f1 || !fieldPresent f2 || !fieldPresent f3) = true
    · rw [if_pos hv]
      exact hinv
    · rw [if_neg hv]
      simp only [Bool.or_eq_true, Bool.not_eq_true', not_or, Bool.not_eq_false] at hv
      obtain ⟨⟨hva, hvb⟩, hvc⟩ := hv
      dsimp only
      by_cases hd : ((db.customers.any fun c => c.id == id) &&
          (db.customers.any fun c => c.id != id && c.phone_number == f3.getD "")) = true
      · rw [if_pos hd]
        exact hinv
      · rw [if_neg hd]
        by_cases hz : (db.customers.countP (fun c => c.id == id) == 0) = true
        · rw [if_pos hz]
          exact hinv
        · rw [if_neg hz]
          refine ⟨?_, hinv.2⟩
          intro c hc
          rcases List.mem_map.1 hc with ⟨b, hb, rfl⟩
          by_cases hbid : (b.id == id) = true
          · rw [if_pos hbid]
            exact ⟨fieldPresent_getD hva, fieldPresent_getD hvb, fieldPresent_getD hvc⟩
          · rw [if_neg hbid]
            exact hinv.1 b hb
  · unfold createAddress
    by_cases hv : (!fieldPresent g1 || !fieldPresent g2 ||
        !fieldPresent g3 || !fieldPresent g4) = true
    · rw [if_pos hv]
      exact hinv
    · rw [if_neg hv]
      simp only [Bool.or_eq_true, Bool.not_eq_true', not_or, Bool.not_eq_false] at hv
      obtain ⟨⟨⟨hva, hvb⟩, hvc⟩, hvd⟩ := hv
      refine ⟨hinv.1, ?_⟩
      intro a ha
      rcases List.mem_append.1 ha with ha | ha
      · exact hinv.2 a ha
      · rw [List.mem_singleton] at ha
        subst ha
        exact ⟨fieldPresent_getD hva, fieldPresent_getD hvb,
          fieldPresent_getD hvc, fieldPresent_getD hvd⟩
  · unfold updateAddress
    by_cases hv : (!fieldPresent g1 || !fieldPresent g2 ||
        !fieldPresent g3 || !fieldPresent g4) = true
    · rw [if_pos hv]
      exact hinv
    · rw [if_neg hv]
      simp only [Bool.or_eq_true, Bool.not_eq_true', not_or, Bool.not_eq_false] at hv
      obtain ⟨⟨⟨hva, hvb⟩, hvc⟩, hvd⟩ := hv
      dsimp only
      by_cases hz : (db.addresses.countP (fun a => a.id == aid) == 0) = true
      · rw [if_pos hz]
        exact hinv
      · rw [if_neg hz]
        refine ⟨hinv.1, ?_⟩
        intro a ha
        rcases List.mem_map.1 ha with ⟨b, hb, rfl⟩
        by_cases hbid : (b.id == aid) = true
        · rw [if_pos hbid]
          exact ⟨fieldPresent_getD hva, fieldPresent_getD hvb,
            fieldPresent_getD hvc, fieldPresent_getD hvd⟩
        · rw [if_neg hbid]
          exact hinv.2 b hb

/-- Witness for C8: the four handlers applied to the empty store. -/
theorem handlers_preserve_DBInv_witness :
    DBInv (createCustomer DB.empty (some "A") (some "B") (some "1")).db ∧
    DBInv (updateCustomer DB.empty 1 (some "A") (some "B") (some "1")).db ∧
    DBInv (createAddress DB.empty 1 (some "a") (some "b") (some "c") (some "d")).db ∧
    DBInv (updateAddress DB.empty 1 (some "a") (some "b") (some "c") (some "d")).db :=
  handlers_preserve_DBInv DB.empty (by constructor <;> simp [DBInv, DB.empty]) 1 1 1
    (some "A") (some "B") (some "1") (some "a") (some "b") (some "c") (some "d")

/-- A trailing `%` in a LIKE pattern matches any remaining text. -/
theorem likeMatch_percent_nil (cs : List Char) : likeMatch ['%'] cs = true := by
  rw [show likeMatch ['%'] cs = cs.tails.any (fun t => likeMatch [] t) from rfl]
  rw [List.any_eq_true]
  exact ⟨[], (List.mem_tails [] cs).2 List.nil_suffix, rfl⟩

/-- Case folding is invisible on the digit `'5'`: a LIKE comparison against
the pattern character `'5'` is plain character equality. -/
theorem foldChar_five (c : Char) : (foldChar '5' == foldChar c) = ('5' == c) := by
  have h5 : foldChar '5' = 53 := by decide
  rw [h5]
  unfold foldChar
  by_cases h : (decide (65 ≤ c.toNat) && decide (c.toNat ≤ 90)) = true
  · rw [if_pos h]
    simp only [Bool.and_eq_true, decide_eq_true_eq] at h
    have h1 : (53 == c.toNat + 32) = false := by
      rw [beq_eq_false_iff_ne]
      omega
    have h2 : ('5' == c) = false := by
      rw [beq_eq_false_iff_ne]
      intro he
      rw [← he] at h
      exact absurd h.1 (by decide)
    rw [h1, h2]
  · rw [if_neg h]
    by_cases he : c = '5'
    · subst he
      decide
    · have h2 : ('5' == c) = false := by
        rw [beq_eq_false_iff_ne]
        exact fun hh => he hh.symm
      have h1 : (53 == c.toNat) = false := by
        rw [beq_eq_false_iff_ne]
        intro hh
        have h53 : ('5' : Char).toNat = 53 := by decide
        exact he (char_toNat_inj (by rw [h53, ← hh]))
      rw [h1, h2]

/-- Against the pattern tail `555%`, LIKE matching is exactly "starts with
`555`". -/
theorem likeMatch_five_tail (t : List Char) :
    likeMatch ['5', '5', '5', '%'] t = startsList ['5', '5', '5'] t := by
  rcases t with _ | ⟨b, _ | ⟨c, _ | ⟨d, rest⟩⟩⟩
  · rfl
  · rw [show likeMatch ['5', '5', '5', '%'] [b]
        = ((foldChar '5' == foldChar b) && likeMatch ['5', '5', '%'] []) from rfl,
      show startsList ['5', '5', '5'] [b] = (('5' == b) && startsList ['5', '5'] []) from rfl,
      foldChar_five b]
    rfl
  · rw [show likeMatch ['5', '5', '5', '%'] [b, c]
        = ((foldChar '5' == foldChar b) &&
            ((foldChar '5' == foldChar c) && likeMatch ['5', '%'] [])) from rfl,
      show startsList ['5', '5', '5'] [b, c]
        = (('5' == b) && (('5' == c) && startsList ['5'] [])) from rfl,
      foldChar_five b, foldChar_five c]
    rfl
  · rw [show likeMatch ['5', '5', '5', '%'] (b :: c :: d :: rest)
        = ((foldChar '5' == foldChar b) && ((foldChar '5' == foldChar c) &&
            ((foldChar '5' == foldChar d) && likeMatch ['%'] rest))) from rfl,
      show startsList ['5', '5', '5'] (b :: c :: d :: rest)
        = (('5' == b) && (('5' == c) && (('5' == d) && true))) from rfl,
      foldChar_five b, foldChar_five c, foldChar_five d, likeMatch_percent_nil rest]

/-- `s LIKE %555%` is exactly substring containment of `"555"`. -/
theorem strLike_five (s : String) :
    strLike s (likePattern "555") = containsSubstring s "555" := by
  have hp : (likePattern "555").data = ['%', '5', '5', '5', '%'] := by decide
  have hs : ("555" : String).data = ['5', '5', '5'] := by decide
  unfold strLike containsSubstring
  rw [hp, hs]
  rw [show likeMatch ['%', '5', '5', '5', '%'] s.data
      = (s.data.tails.any fun t => likeMatch ['5', '5', '5', '%'] t) from rfl]
  unfold hasInfixList
  congr 1
  funext t
  exact likeMatch_five_tail t

/-- C5 counterexample: with search string `"_"` — an SQL LIKE wildcard — the
handler returns the customer `⟨1, "x", "y", "z"⟩` although none of its three
text fields contains `"_"` as a substring, refuting "filters to exactly the
rows where at least one of the fields contains the search string as a
substring" for every search string. -/
theorem listCustomers_search_counterexample :
    (listCustomers ⟨[⟨1, "x", "y", "z"⟩], [], 2, 1⟩ 1 10 "_").data = [⟨1, "x", "y", "z"⟩] ∧
    containsSubstring "x" "_" = false ∧
    containsSubstring "y" "_" = false ∧
    containsSubstring "z" "_" = false := by decide

/-- C5 (amended): with a non-empty search string the handler filters the rows
by the SQL LIKE predicate `%search%` — ASCII-case-insensitive, with `%` and
`_` in the search string acting as wildcards — over the three text fields;
for the wildcard-free, letter-free search string "555" this predicate is
exactly substring containment, so `search="555"` returns exactly the
customers one of whose three text fields contains `"555"`. -/
theorem listCustomers_search_semantics (db : DB) (search : String) (page limit : Nat)
    (c : Customer) (h : search ≠ "") :
    customersMatching db search = db.customers.filter (matchesSearch search) ∧
    (matchesSearch "555" c
      = (containsSubstring c.first_name "555" || containsSubstring c.last_name "555" ||
          containsSubstring c.phone_number "555")) ∧
    (listCustomers db page limit "555").pagination.total
      = (db.customers.filter fun x =>
          containsSubstring x.first_name "555" || containsSubstring x.last_name "555" ||
          containsSubstring x.phone_number "555").length := by
  have hm : matchesSearch "555" = fun x : Customer =>
      (containsSubstring x.first_name "555" || containsSubstring x.last_name "555" ||
        containsSubstring x.phone_number "555") := by
    funext x
    unfold matchesSearch
    rw [strLike_five, strLike_five, strLike_five]
  have hne : ¬(search.isEmpty = true) := fun he => h ((String.isEmpty_iff search).1 he)
  refine ⟨?_, ?_, ?_⟩
  · unfold customersMatching
    rw [if_neg hne]
  · rw [hm]
  · rw [show (listCustomers db page limit "555").pagination.total
        = (customersMatching db "555").length from rfl]
    unfold customersMatching
    rw [if_neg (by decide), hm]

/-- Witness for C5 (amended), at the sample store, search "q", the customer
`⟨1, "x", "y", "555"⟩`. -/
theorem listCustomers_search_semantics_witness :
    customersMatching sampleDB "q" = sampleDB.customers.filter (matchesSearch "q") ∧
    (matchesSearch "555" ⟨1, "x", "y", "555"⟩
      = (containsSubstring "x" "555" || containsSubstring "y" "555" ||
          containsSubstring "555" "555")) ∧
    (listCustomers sampleDB 1 10 "555").pagination.total
      = (sampleDB.customers.filter fun x =>
          containsSubstring x.first_name "555" || containsSubstring x.last_name "555" ||
          containsSubstring x.phone_number "555").length :=
  listCustomers_search_semantics sampleDB "q" 1 10 ⟨1, "x", "y", "555"⟩ (by decide)
